import Mathlib

/-!
Verification development for `create_appliance.py` (kameleon-helpers):
a script that converts a rootfs payload (directory or archive) into a
bootable disk image via guestfish.  The Python functions relevant to the
specification are embedded shallowly below: pure string manipulation is
translated to Lean functions; filesystem probing and process spawning are
abstracted as explicit boolean parameters and event traces.
-/

/-! ## Python string primitives

`str.strip()`, `str.split('\n')`, the `in` substring test and
`str.lower()` as used by the script (ASCII inputs). -/

/-- Characters removed by Python `str.strip()` (ASCII whitespace). -/
def py_is_space (c : Char) : Bool :=
  c = ' ' || c = '\t' || c = '\n' || c = '\x0d' || c = '\x0b' || c = '\x0c'

/-- Python `s.strip()`: drop leading and trailing whitespace. -/
def py_strip (s : String) : String :=
  String.mk (((s.toList.dropWhile py_is_space).reverse.dropWhile py_is_space).reverse)

/-- Split a character list at every occurrence of `sep`; the separator is
not kept.  Mirrors Python `str.split(sep)` for a one-character separator
(in particular the empty input yields one empty field). -/
def split_on_char (sep : Char) : List Char → List (List Char)
  | [] => [[]]
  | c :: cs =>
    if c = sep then [] :: split_on_char sep cs
    else (c :: (split_on_char sep cs).headD []) :: (split_on_char sep cs).tail

/-- Python `s.split(sep)` for a one-character separator. -/
def py_split (sep : Char) (s : String) : List String :=
  (split_on_char sep s.toList).map String.mk

/-- `needle` occurs at the start of `hay`. -/
def chars_start_with : List Char → List Char → Bool
  | [], _ => true
  | _ :: _, [] => false
  | a :: as, b :: bs => a = b && chars_start_with as bs

/-- `needle` occurs somewhere inside `hay`. -/
def contains_chars (hay needle : List Char) : Bool :=
  match hay with
  | [] => chars_start_with needle []
  | _ :: t => chars_start_with needle hay || contains_chars t needle

/-- Python `sub in s` (substring test). -/
def str_contains (s sub : String) : Bool :=
  contains_chars s.toList sub.toList

/-- Python `str.lower()` restricted to ASCII, which is all the script
compares against. -/
def ascii_lower (c : Char) : Char :=
  if 'A' ≤ c ∧ c ≤ 'Z' then Char.ofNat (c.toNat + 32) else c

/-- Python `s.lower()` (ASCII). -/
def py_lower (s : String) : String :=
  String.mk (s.toList.map ascii_lower)

/-! ## `get_boot_information` (create_appliance.py lines 175–196)

The guestfish script prints, pipe-captured: the partition UUID, the first
`/boot` file named `vmlinuz*`, the first `/boot` file named `init*` not
containing `fallback`, and the first named `init*` containing `fallback`.
The Python code strips the captured output, splits it on newlines, and:
with exactly four fields unpacks them as
`(uuid, vmlinuz, initrd, initrd_fallback)` and keeps `initrd` when truthy
(non-empty) else `initrd_fallback`; otherwise it attempts a three-field
unpack `(uuid, vmlinuz, initrd)`, and any unpack failure (any other field
count) is caught and re-raised as the boot-artifacts error. -/

/-- The line list `get_boot_information` parses: captured output,
stripped, split on newlines. -/
def boot_info_lines (output : String) : List String :=
  py_split '\n' (py_strip output)

/-- Shallow embedding of `get_boot_information`, as a function of the
captured guestfish output. -/
def get_boot_information (output : String) :
    Except String (String × String × String) :=
  match boot_info_lines output with
  | [uuid, vmlinuz, initrd, initrd_fallback] =>
    if initrd ≠ "" then Except.ok (uuid, vmlinuz, initrd)
    else Except.ok (uuid, vmlinuz, initrd_fallback)
  | [uuid, vmlinuz, initrd] => Except.ok (uuid, vmlinuz, initrd)
  | _ => Except.error "Invalid boot information (missing kernel ?)"

/-- C1: the boot-information parse treats a four-line output as
(UUID, kernel, initrd, initrd-fallback), returning the third line as the
initrd when non-empty and the fourth otherwise; a three-line output is
returned positionally unchanged; any other line count (which is also how
a missing UUID or kernel query result manifests, since an absent query
result removes its line) fails with the boot-artifacts error. -/
theorem get_boot_information_spec (output u k i f : String) :
    (boot_info_lines output = [u, k, i, f] →
      get_boot_information output =
        if i ≠ "" then Except.ok (u, k, i) else Except.ok (u, k, f)) ∧
    (boot_info_lines output = [u, k, i] →
      get_boot_information output = Except.ok (u, k, i)) ∧
    ((boot_info_lines output).length ≠ 4 →
      (boot_info_lines output).length ≠ 3 →
      get_boot_information output =
        Except.error "Invalid boot information (missing kernel ?)") := by
  refine ⟨?_, ?_, ?_⟩
  · intro h
    simp only [get_boot_information, h]
  · intro h
    simp only [get_boot_information, h]
  · intro h4 h3
    unfold get_boot_information
    rcases hl : boot_info_lines output with _ | ⟨a, _ | ⟨b, _ | ⟨c, _ | ⟨d, _ | ⟨e, t⟩⟩⟩⟩⟩
    · rfl
    · rfl
    · rfl
    · exact absurd (by rw [hl]; rfl) h3
    · exact absurd (by rw [hl]; rfl) h4
    · rfl

/-- C1 witness: a concrete four-line output with empty third line (no
non-fallback initrd) resolves to the fallback initrd. -/
theorem get_boot_information_spec_witness :
    get_boot_information " 9b6e55d2-c7a0\nvmlinuz-5.10\n\ninitramfs-fallback.img\n" =
      Except.ok ("9b6e55d2-c7a0", "vmlinuz-5.10", "initramfs-fallback.img") := by
  have h :=
    (get_boot_information_spec " 9b6e55d2-c7a0\nvmlinuz-5.10\n\ninitramfs-fallback.img\n"
      "9b6e55d2-c7a0" "vmlinuz-5.10" "" "initramfs-fallback.img").1 (by decide)
  simpa using h

/-! ## `run_guestfish_script` (create_appliance.py lines 132–156)

The script text actually fed to guestfish: with `mount=True` the code
sets `script = "run\nmount /dev/sda1 /\n%s" % script`, otherwise
`script = "run\n%s" % script`. -/

/-- The guestfish `run` directive line. -/
def run_directive : String := "run\n"

/-- The guestfish directive mounting the first partition at the root. -/
def mount_first_partition_root : String := "mount /dev/sda1 /\n"

/-- Shallow embedding of the script text `run_guestfish_script` executes,
as a function of the caller's script and the `mount` flag. -/
def guestfish_executed_script (script : String) (mount : Bool) : String :=
  if mount then "run\nmount /dev/sda1 /\n" ++ script
  else "run\n" ++ script

/-- C8: with mounting requested the executed script is the original text
prefixed by the run directive followed by a mount of the first partition
at the root; without mounting it is the original text prefixed by the run
directive alone. -/
theorem run_guestfish_script_spec (script : String) :
    guestfish_executed_script script true =
      run_directive ++ mount_first_partition_root ++ script ∧
    guestfish_executed_script script false = run_directive ++ script := by
  exact ⟨rfl, rfl⟩

/-! ## `create_disk` population dispatch (create_appliance.py lines 246–292)

`create_disk` probes the payload with `file`, lowercases the probe text,
and chooses how to feed the guestfish `tar-in` operation:

* `"xz compressed data"` in the text → `make_tar_cmd = "xzcat <input>"`;
* else `"bzip2 compressed data"`      → `make_tar_cmd = "bzcat <input>"`;
* else `"gzip compressed data"`       → `make_tar_cmd = "zcat <input>"`;
* later, `"directory"` in the text overwrites `make_tar_cmd` with a
  `tar -cf -` command over the directory;
* a non-empty `make_tar_cmd` is piped into `guestfish ... tar-in - /`,
  and an empty one yields `guestfish ... tar-in <input> /` (the plain
  archive path, no decompression). -/

/-- The producer process on the left of the pipe into guestfish. -/
inductive TarStream
  | from_xzcat
  | from_bzcat
  | from_zcat
  | from_tar_of_directory
deriving DecidableEq

/-- How `create_disk` feeds the payload to the guestfish tar-import. -/
inductive PopulateDispatch
  | piped (src : TarStream)
  | plain_archive
deriving DecidableEq

/-- Shallow embedding of the dispatch logic of `create_disk`, as a
function of the probe text returned by `file_type`. -/
def create_disk_dispatch (probe : String) : PopulateDispatch :=
  let input_type := py_lower probe
  let make_tar_cmd : Option TarStream :=
    if str_contains input_type "xz compressed data" then some TarStream.from_xzcat
    else if str_contains input_type "bzip2 compressed data" then some TarStream.from_bzcat
    else if str_contains input_type "gzip compressed data" then some TarStream.from_zcat
    else none
  let make_tar_cmd :=
    if str_contains input_type "directory" then some TarStream.from_tar_of_directory
    else make_tar_cmd
  match make_tar_cmd with
  | some src => PopulateDispatch.piped src
  | none => PopulateDispatch.plain_archive

/-- C2: payload dispatch by probe text (patterns matched against the
lowercased text, each pattern taken on its own as the claim lists the
cases disjointly): xz-compressed data is decompressed with xzcat,
bzip2 with bzcat, gzip with zcat, each piped into the tar-import; a
directory is streamed as a tar of the directory; anything matching none
of the four patterns goes down the plain-archive path with no
decompression. -/
theorem create_disk_dispatch_spec (probe : String) :
    (str_contains (py_lower probe) "xz compressed data" = true →
      str_contains (py_lower probe) "directory" = false →
      create_disk_dispatch probe = PopulateDispatch.piped TarStream.from_xzcat) ∧
    (str_contains (py_lower probe) "bzip2 compressed data" = true →
      str_contains (py_lower probe) "xz compressed data" = false →
      str_contains (py_lower probe) "directory" = false →
      create_disk_dispatch probe = PopulateDispatch.piped TarStream.from_bzcat) ∧
    (str_contains (py_lower probe) "gzip compressed data" = true →
      str_contains (py_lower probe) "xz compressed data" = false →
      str_contains (py_lower probe) "bzip2 compressed data" = false →
      str_contains (py_lower probe) "directory" = false →
      create_disk_dispatch probe = PopulateDispatch.piped TarStream.from_zcat) ∧
    (str_contains (py_lower probe) "directory" = true →
      create_disk_dispatch probe = PopulateDispatch.piped TarStream.from_tar_of_directory) ∧
    (str_contains (py_lower probe) "xz compressed data" = false →
      str_contains (py_lower probe) "bzip2 compressed data" = false →
      str_contains (py_lower probe) "gzip compressed data" = false →
      str_contains (py_lower probe) "directory" = false →
      create_disk_dispatch probe = PopulateDispatch.plain_archive) := by
  refine ⟨?_, ?_, ?_, ?_, ?_⟩
  · intro h1 h2
    simp [create_disk_dispatch, h1, h2]
  · intro h1 h2 h3
    simp [create_disk_dispatch, h1, h2, h3]
  · intro h1 h2 h3 h4
    simp [create_disk_dispatch, h1, h2, h3, h4]
  · intro h1
    simp [create_disk_dispatch, h1]
  · intro h1 h2 h3 h4
    simp [create_disk_dispatch, h1, h2, h3, h4]

/-- C2 witness: a gzip-compressed payload is decompressed with zcat and
piped into the tar-import. -/
theorem create_disk_dispatch_spec_witness :
    create_disk_dispatch "gzip compressed data, was \x22rootfs.tar\x22" =
      PopulateDispatch.piped TarStream.from_zcat := by
  exact (create_disk_dispatch_spec "gzip compressed data, was \x22rootfs.tar\x22").2.2.1
    (by decide) (by decide) (by decide) (by decide)

/-! ## `find_mbr` and the MBR resolution in `install_bootloader`
(create_appliance.py lines 158–172 and 210–213)

`find_mbr` walks a fixed tuple of seven well-known paths and returns the
first that exists, raising `"syslinux MBR not found"` otherwise.
`install_bootloader` computes `mbr_path = mbr or find_mbr()`: the Python
`or` falls through to `find_mbr()` exactly when `mbr` is falsy (`None` or
the empty string).  The host filesystem is abstracted as a predicate
`path_exists`. -/

/-- The fixed ordered search tuple of `find_mbr`. -/
def mbr_search_paths : List String :=
  ["/usr/share/syslinux/mbr.bin",
   "/usr/lib/bios/syslinux/mbr.bin",
   "/usr/lib/syslinux/bios/mbr.bin",
   "/usr/lib/extlinux/mbr.bin",
   "/usr/lib/syslinux/mbr.bin",
   "/usr/lib/syslinux/mbr/mbr.bin",
   "/usr/lib/EXTLINUX/mbr.bin"]

/-- The `for path in search_paths` loop of `find_mbr`. -/
def find_mbr_loop (path_exists : String → Bool) : List String → Except String String
  | [] => Except.error "syslinux MBR not found"
  | p :: rest =>
    if path_exists p then Except.ok p else find_mbr_loop path_exists rest

/-- Shallow embedding of `find_mbr`, abstracting `os.path.exists`. -/
def find_mbr (path_exists : String → Bool) : Except String String :=
  find_mbr_loop path_exists mbr_search_paths

/-- Python truthiness of the optional `--extlinux-mbr` value: `None` and
`""` are falsy. -/
def py_truthy_str : Option String → Bool
  | Option.none => false
  | Option.some s => s != ""

/-- Shallow embedding of `mbr_path = mbr or find_mbr()` in
`install_bootloader` (the subsequent `abspath` call is host-path
normalization outside the model). -/
def install_bootloader_mbr (mbr : Option String) (path_exists : String → Bool) :
    Except String String :=
  if py_truthy_str mbr then Except.ok (mbr.getD "") else find_mbr path_exists

/-- The loop of `find_mbr` returns the first list element satisfying the
existence predicate. -/
theorem find_mbr_loop_eq_find (path_exists : String → Bool) (l : List String) :
    find_mbr_loop path_exists l =
      (l.find? path_exists).elim (Except.error "syslinux MBR not found") Except.ok := by
  induction l with
  | nil => rfl
  | cons p rest ih =>
    by_cases hp : path_exists p
    · simp [find_mbr_loop, List.find?_cons, hp]
    · simp only [Bool.not_eq_true] at hp
      simp [find_mbr_loop, List.find?_cons, hp, ih]

/-- C3: with a non-empty explicit MBR override the well-known search
paths are never consulted (the result is the override, independent of
which paths exist); without an override the first existing path of the
fixed list is selected, and the not-found error is raised exactly when
none of the seven paths exists. -/
theorem install_bootloader_mbr_spec (path_exists : String → Bool) (m : String)
    (hm : m ≠ "") :
    install_bootloader_mbr (Option.some m) path_exists = Except.ok m ∧
    find_mbr path_exists =
      (mbr_search_paths.find? path_exists).elim
        (Except.error "syslinux MBR not found") Except.ok ∧
    (find_mbr path_exists = Except.error "syslinux MBR not found" ↔
      ∀ p ∈ mbr_search_paths, path_exists p = false) := by
  refine ⟨?_, ?_, ?_⟩
  · simp [install_bootloader_mbr, py_truthy_str, hm]
  · exact find_mbr_loop_eq_find path_exists mbr_search_paths
  · unfold find_mbr
    rw [find_mbr_loop_eq_find]
    constructor
    · intro h
      cases hf : mbr_search_paths.find? path_exists with
      | none =>
        intro p hp
        have := List.find?_eq_none.mp hf p hp
        simpa using this
      | some q => simp [hf] at h
    · intro h
      have hf : mbr_search_paths.find? path_exists = Option.none :=
        List.find?_eq_none.mpr (fun p hp => by simp [h p hp])
      simp [hf]

/-- C3 witness: on a host with none of the well-known paths present, an
explicit override is returned as-is and the fallback search fails with
the not-found error. -/
theorem install_bootloader_mbr_spec_witness :
    install_bootloader_mbr (Option.some "/opt/custom/mbr.bin") (fun _ => false) =
      Except.ok "/opt/custom/mbr.bin" ∧
    find_mbr (fun _ => false) = Except.error "syslinux MBR not found" := by
  have h := install_bootloader_mbr_spec (fun _ => false) "/opt/custom/mbr.bin" (by decide)
  exact ⟨h.1, h.2.2.mpr (fun p _ => rfl)⟩

/-- C10: an empty-string `--extlinux-mbr` override is falsy in Python, so
`mbr or find_mbr()` behaves exactly as if no override had been supplied:
the well-known search paths are consulted. -/
theorem install_bootloader_mbr_empty_string (path_exists : String → Bool) :
    install_bootloader_mbr (Option.some "") path_exists =
      install_bootloader_mbr Option.none path_exists ∧
    install_bootloader_mbr (Option.some "") path_exists = find_mbr path_exists := by
  constructor <;> rfl

/-! ## Export step of `create_appliance` (create_appliance.py lines 320–325)
and working-disk creation format (line 263)

`create_disk` always creates the working disk with `--format qcow2`
(the `fmt` parameter is not used for creation).  At the end of
`create_appliance`, with `output_fmt = args.format.lower()`:
`if output_fmt == "qcow2": shutil.move(temp_file, output_filename)`,
else `qemu_convert(...)` followed by
`os.remove(temp_file) if os.path.exists(temp_file) else None`. -/

/-- The container format `create_disk` passes to `virt-make-fs`
(`"--format", "qcow2"`, hardcoded). -/
def disk_creation_format : String := "qcow2"

/-- Observable actions of the export step on the working disk. -/
inductive ExportAction
  | rename_to_output
  | qemu_convert_to_output
  | remove_working_disk
deriving DecidableEq

/-- Shallow embedding of the export step: the ordered actions taken on
the working disk, given the requested format and whether the working
disk still exists after conversion (it does: `qemu-img convert` does not
remove its source). -/
def export_working_disk (requested_format : String) (temp_exists_after_convert : Bool) :
    List ExportAction :=
  if py_lower requested_format = "qcow2" then [ExportAction.rename_to_output]
  else
    [ExportAction.qemu_convert_to_output] ++
      (if temp_exists_after_convert then [ExportAction.remove_working_disk] else [])

/-- C4: when the requested format equals the format the working disk was
created in (qcow2), the disk is renamed and no converter runs; when it
differs, the converter runs and the working disk is deleted afterwards;
and in every case the working disk is renamed or deleted, never both. -/
theorem create_appliance_export_spec (fmt : String) (b : Bool) :
    (py_lower fmt = disk_creation_format →
      export_working_disk fmt b = [ExportAction.rename_to_output] ∧
      ExportAction.qemu_convert_to_output ∉ export_working_disk fmt b) ∧
    (py_lower fmt ≠ disk_creation_format →
      export_working_disk fmt true =
        [ExportAction.qemu_convert_to_output, ExportAction.remove_working_disk] ∧
      ExportAction.rename_to_output ∉ export_working_disk fmt b) ∧
    ¬(ExportAction.rename_to_output ∈ export_working_disk fmt b ∧
      ExportAction.remove_working_disk ∈ export_working_disk fmt b) := by
  refine ⟨?_, ?_, ?_⟩
  · intro h
    rw [disk_creation_format] at h
    constructor
    · simp [export_working_disk, h]
    · simp [export_working_disk, h]
  · intro h
    rw [disk_creation_format] at h
    constructor
    · simp [export_working_disk, h]
    · cases b <;> simp [export_working_disk, h]
  · by_cases h : py_lower fmt = "qcow2"
    · simp [export_working_disk, h]
    · cases b <;> simp [export_working_disk, h]

/-- C4 witness: requesting `raw` (different from the creation format)
converts and then removes the working disk. -/
theorem create_appliance_export_spec_witness :
    export_working_disk "raw" true =
      [ExportAction.qemu_convert_to_output, ExportAction.remove_working_disk] :=
  ((create_appliance_export_spec "raw" true).2.1 (by decide)).1

/-! ## `create_disk` failure on a missing payload
(create_appliance.py lines 104–107 and 246–292)

`create_disk` first calls `file_type(input_)`, which checks
`op.exists(path)` *before* resolving or spawning the `file` probe; only
after a successful probe does it spawn `virt-make-fs` (creating the
working disk) and then the population pipeline.  External process spawns
are modelled as an ordered event trace, with each spawned tool's exit
status abstracted as a boolean outcome. -/

/-- External processes `create_disk` can spawn, in program order. -/
inductive BuildEvent
  | spawn_file_probe
  | spawn_virt_make_fs
  | spawn_populate_pipeline
deriving DecidableEq

/-- Exit outcomes of the external tools `create_disk` invokes. -/
structure ExternalOutcomes where
  probe_ok : Bool
  mkfs_ok : Bool
  populate_ok : Bool

/-- Shallow embedding of the effect sequence of `create_disk`: the spawn
events that occur, in order, and the overall outcome, as a function of
whether the payload path exists and of each tool's exit status. -/
def create_disk_run (input_exists : Bool) (input_ : String) (ext : ExternalOutcomes) :
    List BuildEvent × Except String Unit :=
  if input_exists then
    if ext.probe_ok then
      if ext.mkfs_ok then
        if ext.populate_ok then
          ([BuildEvent.spawn_file_probe, BuildEvent.spawn_virt_make_fs,
            BuildEvent.spawn_populate_pipeline], Except.ok ())
        else
          ([BuildEvent.spawn_file_probe, BuildEvent.spawn_virt_make_fs,
            BuildEvent.spawn_populate_pipeline],
           Except.error "populate pipeline returned non-zero")
      else
        ([BuildEvent.spawn_file_probe, BuildEvent.spawn_virt_make_fs],
         Except.error "virt-make-fs returned non-zero")
    else
      ([BuildEvent.spawn_file_probe], Except.error "file probe returned non-zero")
  else
    ([], Except.error ("cannot open '" ++ input_ ++ "' (No such file or directory)"))

/-- C9: with a non-existent payload path, `create_disk` fails with the
file-type probe's missing-file error and its event trace is empty: no
external process is spawned, in particular the working disk is never
created, so nothing is left behind. -/
theorem create_disk_missing_payload_spec (input_ : String) (ext : ExternalOutcomes) :
    (create_disk_run false input_ ext).2 =
      Except.error ("cannot open '" ++ input_ ++ "' (No such file or directory)") ∧
    (create_disk_run false input_ ext).1 = [] ∧
    BuildEvent.spawn_virt_make_fs ∉ (create_disk_run false input_ ext).1 := by
  refine ⟨rfl, rfl, ?_⟩
  simp [create_disk_run]

/-! ## CLI format option and final output path
(create_appliance.py lines 295–302 and 328–342)

The argparse configuration declares
`parser.add_argument('-F', '--format', action="store", type=str,
 help=..., default='qcow2')`: the tuple `allowed_formats` is
interpolated *only into the help text*; no `choices=` constraint is
given, so any string is accepted.  `create_appliance` then computes
`output_fmt = args.format.lower()` and
`output_filename = "%s.%s" % (output, output_fmt)`. -/

/-- The `allowed_formats` tuple of the script (used only in help text). -/
def allowed_formats : List String := ["qcow", "qcow2", "qed", "vdi", "raw", "vmdk"]

/-- Shallow embedding of the `-F` (`--format`) option handling: value passed
through verbatim, default `qcow2`, no validation (argparse is given no
`choices=` restriction). -/
def parse_format_option : Option String → String
  | Option.none => "qcow2"
  | Option.some s => s

/-- Shallow embedding of `output_filename = "%s.%s" % (output, output_fmt)`
with `output_fmt = args.format.lower()`. -/
def output_filename (output fmt : String) : String :=
  output ++ "." ++ py_lower fmt

/-- C6 (code bug): the parser accepts `-F vhd` even though `vhd` is not
in `allowed_formats` — the allowed-values list appears only in the help
text and argparse gets no `choices=` restriction; the default is
`qcow2`, and the final file path appends the (lowercased) format as the
extension. -/
theorem format_option_not_validated :
    parse_format_option (Option.some "vhd") = "vhd" ∧
    ¬ "vhd" ∈ allowed_formats ∧
    output_filename "/tmp/appliance" "vhd" = "/tmp/appliance.vhd" ∧
    parse_format_option Option.none = "qcow2" := by
  refine ⟨rfl, by decide, by decide, rfl⟩

/-! ## Splitting lemmas

Facts about `split_on_char` used to reason about line and field structure
of generated text. -/

/-- Splitting never yields an empty field list. -/
theorem split_on_char_ne_nil (sep : Char) (l : List Char) :
    split_on_char sep l ≠ [] := by
  cases l with
  | nil => simp [split_on_char]
  | cons c cs => by_cases hc : c = sep <;> simp [split_on_char, hc]

/-- Splitting after a non-separator head prepends it to the first field. -/
theorem split_on_char_cons_of_ne (sep c : Char) (cs : List Char) (h : c ≠ sep) :
    split_on_char sep (c :: cs) =
      (c :: (split_on_char sep cs).headD []) :: (split_on_char sep cs).tail := by
  simp [split_on_char, h]

/-- A leading separator contributes an empty first field. -/
theorem split_on_char_sep_cons (sep : Char) (l : List Char) :
    split_on_char sep (sep :: l) = [] :: split_on_char sep l := by
  simp [split_on_char]

/-- A separator-free block prepends itself to the first field of the
split of the remainder. -/
theorem split_on_char_append_of_not_mem (sep : Char) (a l : List Char) (h : sep ∉ a) :
    split_on_char sep (a ++ l) =
      (a ++ (split_on_char sep l).headD []) :: (split_on_char sep l).tail := by
  induction a with
  | nil =>
    simp only [List.nil_append]
    rcases hs : split_on_char sep l with _ | ⟨g, gs⟩
    · exact absurd hs (split_on_char_ne_nil sep l)
    · simp
  | cons c a' ih =>
    have hc : c ≠ sep := fun hc => h (by simp [hc])
    have ha : sep ∉ a' := fun hm => h (List.mem_cons_of_mem _ hm)
    rw [List.cons_append, split_on_char_cons_of_ne sep c (a' ++ l) hc, ih ha]
    simp

/-- A separator-free block followed by a separator is one whole field. -/
theorem split_on_char_append_sep (sep : Char) (a l : List Char) (h : sep ∉ a) :
    split_on_char sep (a ++ sep :: l) = a :: split_on_char sep l := by
  rw [split_on_char_append_of_not_mem sep a _ h, split_on_char_sep_cons]
  simp

/-- A separator-free list is a single field. -/
theorem split_on_char_of_not_mem (sep : Char) (a : List Char) (h : sep ∉ a) :
    split_on_char sep a = [a] := by
  have h2 := split_on_char_append_of_not_mem sep a [] h
  simpa [split_on_char] using h2

/-! ## Top-level error reporting (create_appliance.py lines 361–375)

The `__main__` block wraps the build in
`try: ... create_appliance(args)
 except Exception as exc: sys.stderr.write(u"\nError: %s\n" % exc); sys.exit(1)`;
on success it falls through and the process exits with status 0, having
written nothing to the standard error stream (logging is wired to
stdout). -/

/-- Process exit status as a function of the guarded body's outcome. -/
def main_exit_code (outcome : Except String Unit) : Nat :=
  match outcome with
  | Except.ok _ => 0
  | Except.error _ => 1

/-- Bytes written to the standard error stream as a function of the
guarded body's outcome. -/
def main_stderr (outcome : Except String Unit) : String :=
  match outcome with
  | Except.ok _ => ""
  | Except.error msg => "\nError: " ++ msg ++ "\n"

/-- C7: the process exits 0 exactly on success (with an empty error
stream); on any propagated failure it exits 1 and the error stream
carries exactly one non-empty line, of the form `Error: <message>`. -/
theorem main_error_reporting_spec (outcome : Except String Unit) (msg : String) :
    (main_exit_code outcome = 0 ↔ outcome = Except.ok ()) ∧
    (outcome = Except.ok () → main_stderr outcome = "") ∧
    (outcome = Except.error msg → main_exit_code outcome = 1) ∧
    (outcome = Except.error msg → '\n' ∉ msg.toList →
      (split_on_char '\n' (main_stderr outcome).toList).filter
          (fun l => !l.isEmpty) = [("Error: " ++ msg).toList]) := by
  refine ⟨?_, ?_, ?_, ?_⟩
  · cases outcome with
    | ok u => cases u; simp [main_exit_code]
    | error e => simp [main_exit_code]
  · rintro rfl; rfl
  · rintro rfl; rfl
  · rintro rfl hn
    have hsd : (main_stderr (Except.error msg)).toList =
        '\n' :: ((("Error: " : String).toList ++ msg.toList) ++ ['\n']) := rfl
    have hR : (("Error: " : String) ++ msg).toList =
        ("Error: " : String).toList ++ msg.toList := rfl
    have hmem : '\n' ∉ ("Error: " : String).toList ++ msg.toList := by
      intro hm
      rcases List.mem_append.mp hm with h1 | h2
      · exact absurd h1 (by decide)
      · exact hn h2
    rw [hsd, split_on_char_sep_cons, split_on_char_append_sep '\n' _ [] hmem, hR]
    have hE : ("Error: " : String).toList = 'E' :: ("rror: " : String).toList := rfl
    rw [hE]
    simp [split_on_char, List.filter]

/-- C7 witness: a concrete propagated failure exits 1 with the single
stderr line `Error: syslinux MBR not found`. -/
theorem main_error_reporting_spec_witness :
    main_exit_code (Except.error "syslinux MBR not found") = 1 ∧
    (split_on_char '\n'
        (main_stderr (Except.error "syslinux MBR not found")).toList).filter
        (fun l => !l.isEmpty) = [("Error: " ++ "syslinux MBR not found").toList] := by
  have h := main_error_reporting_spec
    (Except.error "syslinux MBR not found") "syslinux MBR not found"
  exact ⟨h.2.2.1 rfl, h.2.2.2 rfl (by decide)⟩

/-! ## `generate_fstab` (create_appliance.py lines 199–207)

The guestfish script is
`write /etc/fstab "# /etc/fstab: static file system information.\n"`,
`write-append  /etc/fstab "# Generated by kameleon-helpers.\n\n"`,
`write-append /etc/fstab "UUID=%s\t/\t%s\tdefaults\t0\t1\n"` with the
UUID and filesystem type substituted.  `write` creates the file with the
first payload and each `write-append` appends, so the resulting
`/etc/fstab` content is the concatenation of the three quoted payloads
with guestfish unescaping `\n` and `\t`. -/

/-- The `/etc/fstab` content produced by the `generate_fstab` script. -/
def generate_fstab_content (uuid filesystem_type : String) : String :=
  "# /etc/fstab: static file system information.\n" ++
  "# Generated by kameleon-helpers.\n\n" ++
  ("UUID=" ++ uuid ++ "\t/\t" ++ filesystem_type ++ "\tdefaults\t0\t1\n")

/-- An fstab entry line: non-empty and not a `#` comment. -/
def is_fstab_entry_line : List Char → Bool
  | [] => false
  | c :: _ => c != '#'

/-- The entry lines of a filesystem table: its newline-split lines that
are non-empty and not comments. -/
def fstab_entry_lines (content : String) : List (List Char) :=
  (split_on_char '\n' content.toList).filter is_fstab_entry_line

/-- C5 counterexample: the generated table has exactly one entry, not
two, at a concrete UUID and filesystem type. -/
theorem generate_fstab_not_two_entries :
    (fstab_entry_lines (generate_fstab_content "7f3d540a-9e1b" "ext2")).length = 1 ∧
    (fstab_entry_lines (generate_fstab_content "7f3d540a-9e1b" "ext2")).length ≠ 2 := by
  constructor
  · decide
  · decide

/-- C5 (amended): for UUID and filesystem-type values free of newlines
and tabs, the generated table has exactly one entry — the line
`UUID=<uuid>\t/\t<fs>\tdefaults\t0\t1` — whose tab-separated fields map
the UUID to the root mount point `/` with the given filesystem type,
`defaults` mount options, dump 0 and fsck pass number 1. -/
theorem generate_fstab_one_entry_spec (uuid fs : String)
    (h1 : '\n' ∉ uuid.toList) (h2 : '\n' ∉ fs.toList)
    (h3 : '\t' ∉ uuid.toList) (h4 : '\t' ∉ fs.toList) :
    fstab_entry_lines (generate_fstab_content uuid fs) =
      [("UUID=" ++ uuid ++ "\t/\t" ++ fs ++ "\tdefaults\t0\t1").toList] ∧
    split_on_char '\t' ("UUID=" ++ uuid ++ "\t/\t" ++ fs ++ "\tdefaults\t0\t1").toList =
      [("UUID=" ++ uuid).toList, ['/'], fs.toList,
       ("defaults" : String).toList, ['0'], ['1']] := by
  have e3 : ("\t/\t" : String).data = ['\t', '/', '\t'] := rfl
  have hE : ("UUID=" ++ uuid ++ "\t/\t" ++ fs ++ "\tdefaults\t0\t1").toList =
      ("UUID=" : String).toList ++ (uuid.toList ++ ('\t' :: '/' :: '\t' ::
        (fs.toList ++ ("\tdefaults\t0\t1" : String).toList))) := by
    simp [String.toList, e3, List.append_assoc]
  have hmem : ('\n' : Char) ∉ ("UUID=" : String).toList ++ (uuid.toList ++
      ('\t' :: '/' :: '\t' :: (fs.toList ++ ("\tdefaults\t0\t1" : String).toList))) := by
    intro hm
    rcases List.mem_append.mp hm with hU | hm1
    · exact absurd hU (by decide)
    rcases List.mem_append.mp hm1 with hu | hm2
    · exact h1 hu
    rcases List.mem_cons.mp hm2 with he | hm3
    · exact absurd he (by decide)
    rcases List.mem_cons.mp hm3 with he | hm4
    · exact absurd he (by decide)
    rcases List.mem_cons.mp hm4 with he | hm5
    · exact absurd he (by decide)
    rcases List.mem_append.mp hm5 with hf | hd
    · exact h2 hf
    · exact absurd hd (by decide)
  have hmem2 : ('\t' : Char) ∉ ("UUID=" : String).toList ++ uuid.toList := by
    intro hm
    rcases List.mem_append.mp hm with hU | hu
    · exact absurd hU (by decide)
    · exact h3 hu
  constructor
  · have hC : (generate_fstab_content uuid fs).toList =
        ("# /etc/fstab: static file system information." : String).toList ++ '\n' ::
          (("# Generated by kameleon-helpers." : String).toList ++ '\n' :: '\n' ::
            (("UUID=" : String).toList ++ (uuid.toList ++ ('\t' :: '/' :: '\t' ::
              (fs.toList ++ (("\tdefaults\t0\t1" : String).toList ++ ['\n'])))))) := by
      have e1 : ("# /etc/fstab: static file system information.\n" : String).data =
          ("# /etc/fstab: static file system information." : String).data ++ ['\n'] := rfl
      have e2 : ("# Generated by kameleon-helpers.\n\n" : String).data =
          ("# Generated by kameleon-helpers." : String).data ++ ['\n', '\n'] := rfl
      have e4 : ("\tdefaults\t0\t1\n" : String).data =
          ("\tdefaults\t0\t1" : String).data ++ ['\n'] := rfl
      simp [generate_fstab_content, String.toList, e1, e2, e3, e4, List.append_assoc]
    have hR : ("UUID=" : String).toList ++ (uuid.toList ++ ('\t' :: '/' :: '\t' ::
        (fs.toList ++ (("\tdefaults\t0\t1" : String).toList ++ ['\n'])))) =
        (("UUID=" : String).toList ++ (uuid.toList ++ ('\t' :: '/' :: '\t' ::
          (fs.toList ++ ("\tdefaults\t0\t1" : String).toList)))) ++ '\n' :: [] := by
      simp [List.append_assoc]
    simp only [fstab_entry_lines]
    rw [hC,
      split_on_char_append_sep '\n'
        (("# /etc/fstab: static file system information." : String).toList) _ (by decide),
      split_on_char_append_sep '\n'
        (("# Generated by kameleon-helpers." : String).toList) _ (by decide),
      split_on_char_sep_cons, hR,
      split_on_char_append_sep '\n' _ _ hmem]
    have fA : is_fstab_entry_line
        (("# /etc/fstab: static file system information." : String).toList) = false := rfl
    have fB : is_fstab_entry_line
        (("# Generated by kameleon-helpers." : String).toList) = false := rfl
    have fe : is_fstab_entry_line (("UUID=" : String).toList ++ (uuid.toList ++
        ('\t' :: '/' :: '\t' ::
          (fs.toList ++ ("\tdefaults\t0\t1" : String).toList)))) = true := rfl
    rw [hE]
    simp [split_on_char, List.filter, fA, fB, fe, is_fstab_entry_line]
  · rw [hE]
    have hB1 : ("UUID=" : String).toList ++ (uuid.toList ++ ('\t' :: '/' :: '\t' ::
        (fs.toList ++ ("\tdefaults\t0\t1" : String).toList))) =
        (("UUID=" : String).toList ++ uuid.toList) ++ '\t' ::
          ('/' :: '\t' :: (fs.toList ++ ("\tdefaults\t0\t1" : String).toList)) := by
      simp [List.append_assoc]
    have hD : ("\tdefaults\t0\t1" : String).toList =
        '\t' :: ("defaults\t0\t1" : String).toList := rfl
    have hD2 : split_on_char '\t' (("defaults\t0\t1" : String).toList) =
        [("defaults" : String).toList, ['0'], ['1']] := by decide
    have hB2 : ('/' : Char) :: '\t' ::
        (fs.toList ++ ("\tdefaults\t0\t1" : String).toList) =
        ['/'] ++ '\t' :: (fs.toList ++ ("\tdefaults\t0\t1" : String).toList) := rfl
    rw [hB1, split_on_char_append_sep '\t' _ _ hmem2, hB2,
      split_on_char_append_sep '\t' ['/'] _ (by decide), hD,
      split_on_char_append_sep '\t' fs.toList _ h4, hD2]
    have hUU : ("UUID=" ++ uuid).toList = ("UUID=" : String).toList ++ uuid.toList := rfl
    rw [hUU]

/-- C5 witness: a concrete UUID and filesystem type yield the single
expected entry with the expected six fields. -/
theorem generate_fstab_one_entry_spec_witness :
    fstab_entry_lines (generate_fstab_content "51b8e3a0-4f2d" "ext4") =
      [("UUID=" ++ "51b8e3a0-4f2d" ++ "\t/\t" ++ "ext4" ++ "\tdefaults\t0\t1").toList] ∧
    split_on_char '\t'
        ("UUID=" ++ "51b8e3a0-4f2d" ++ "\t/\t" ++ "ext4" ++ "\tdefaults\t0\t1").toList =
      [("UUID=" ++ "51b8e3a0-4f2d").toList, ['/'], ("ext4" : String).toList,
       ("defaults" : String).toList, ['0'], ['1']] :=
  generate_fstab_one_entry_spec "51b8e3a0-4f2d" "ext4"
    (by decide) (by decide) (by decide) (by decide)
